import Mathlib

/-!
Verification of the grant-agent scraper pipeline (src/scraper/modal_app.py)
against its natural-language specification.

The Python source is shallowly embedded: every pure fragment becomes a Lean
function over `Nat` / `Int` / `String` / `List`, stateful fragments become
explicit state passing, network and storage effects become oracle functions
supplied as arguments, and machine words of the hash are `Nat` reduced
modulo 2^32 at each operation.
-/

namespace GrantAgent

/-! Python string primitives used by the source (lower, strip, slicing). -/

/-- Whitespace test used by the embedding of Python str.strip(). -/
def pySpace (c : Char) : Bool :=
  c = ' ' || c = '\t' || c = '\n' || c = '\r' || c = Char.ofNat 11 || c = Char.ofNat 12

/-- Embedding of Python str.lower() (ASCII case mapping). -/
def pyLower (s : String) : String :=
  ⟨s.data.map Char.toLower⟩

/-- Embedding of Python str.strip(): drop leading and trailing whitespace. -/
def pyStrip (s : String) : String :=
  ⟨((s.data.dropWhile pySpace).reverse.dropWhile pySpace).reverse⟩

/-! SHA-256 (FIPS 180-4) over `Nat`, words reduced mod 2^32; this embeds the
hashlib.sha256 call of generate_grant_id. -/

/-- Reduction of a `Nat` to a 32-bit word. -/
def w32 (x : Nat) : Nat := x % 4294967296

/-- Right rotation of a 32-bit word. -/
def rotr (n x : Nat) : Nat := w32 ((x >>> n) ||| (x <<< (32 - n)))

/-- Bitwise complement of a 32-bit word. -/
def bnot32 (x : Nat) : Nat := 4294967295 ^^^ x

/-- Choice function of the SHA-256 round. -/
def shaCh (x y z : Nat) : Nat := (x &&& y) ^^^ (bnot32 x &&& z)

/-- Majority function of the SHA-256 round. -/
def shaMaj (x y z : Nat) : Nat := (x &&& y) ^^^ (x &&& z) ^^^ (y &&& z)

/-- Big sigma-0 of SHA-256. -/
def bigS0 (x : Nat) : Nat := rotr 2 x ^^^ rotr 13 x ^^^ rotr 22 x

/-- Big sigma-1 of SHA-256. -/
def bigS1 (x : Nat) : Nat := rotr 6 x ^^^ rotr 11 x ^^^ rotr 25 x

/-- Small sigma-0 of SHA-256. -/
def smallS0 (x : Nat) : Nat := rotr 7 x ^^^ rotr 18 x ^^^ (x >>> 3)

/-- Small sigma-1 of SHA-256. -/
def smallS1 (x : Nat) : Nat := rotr 17 x ^^^ rotr 19 x ^^^ (x >>> 10)

/-- Round constants of SHA-256. -/
def shaK : List Nat :=
    [1116352408, 1899447441, 3049323471, 3921009573, 961987163,
   1508970993, 2453635748, 2870763221, 3624381080, 310598401,
   607225278, 1426881987, 1925078388, 2162078206, 2614888103,
   3248222580, 3835390401, 4022224774, 264347078, 604807628,
   770255983, 1249150122, 1555081692, 1996064986, 2554220882,
   2821834349, 2952996808, 3210313671, 3336571891, 3584528711,
   113926993, 338241895, 666307205, 773529912, 1294757372,
   1396182291, 1695183700, 1986661051, 2177026350, 2456956037,
   2730485921, 2820302411, 3259730800, 3345764771, 3516065817,
   3600352804, 4094571909, 275423344, 430227734, 506948616,
   659060556, 883997877, 958139571, 1322822218, 1537002063,
   1747873779, 1955562222, 2024104815, 2227730452, 2361852424,
   2428436474, 2756734187, 3204031479, 3329325298]

/-- Working state of the compression function: eight 32-bit words. -/
structure H8 where
  a : Nat
  b : Nat
  c : Nat
  d : Nat
  e : Nat
  f : Nat
  g : Nat
  h : Nat
deriving DecidableEq, Repr

/-- Initial hash value of SHA-256. -/
def shaH0 : H8 :=
  ⟨1779033703, 3144134277, 1013904242, 2773480762,
   1359893119, 2600822924, 528734635, 1541459225⟩

/-- Message-schedule extension: grow the 16 block words to 64 words. -/
def schedule (block : List Nat) : List Nat :=
  (List.range 48).foldl
    (fun ws _ =>
      let n := ws.length
      ws ++ [w32 (smallS1 (ws.getD (n - 2) 0) + ws.getD (n - 7) 0 +
                  smallS0 (ws.getD (n - 15) 0) + ws.getD (n - 16) 0)])
    block

/-- One SHA-256 round on the working state; kw is the round constant plus
the schedule word. -/
def shaRound (st : H8) (kw : Nat) : H8 :=
  let t1 := w32 (st.h + bigS1 st.e + shaCh st.e st.f st.g + kw)
  let t2 := w32 (bigS0 st.a + shaMaj st.a st.b st.c)
  ⟨w32 (t1 + t2), st.a, st.b, st.c, w32 (st.d + t1), st.e, st.f, st.g⟩

/-- Compression of one 16-word block into the chaining state. -/
def compressBlock (st : H8) (block : List Nat) : H8 :=
  let ws := schedule block
  let fin := (shaK.zip ws).foldl (fun s p => shaRound s (w32 (p.1 + p.2))) st
  ⟨w32 (st.a + fin.a), w32 (st.b + fin.b), w32 (st.c + fin.c), w32 (st.d + fin.d),
   w32 (st.e + fin.e), w32 (st.f + fin.f), w32 (st.g + fin.g), w32 (st.h + fin.h)⟩

/-- UTF-8 encoding of one character, as the str.encode() call produces. -/
def utf8Bytes (c : Char) : List Nat :=
  let n := c.toNat
  if n < 128 then [n]
  else if n < 2048 then [192 + n / 64, 128 + n % 64]
  else if n < 65536 then [224 + n / 4096, 128 + n / 64 % 64, 128 + n % 64]
  else [240 + n / 262144, 128 + n / 4096 % 64, 128 + n / 64 % 64, 128 + n % 64]

/-- UTF-8 bytes of a whole string. -/
def strBytes (s : String) : List Nat :=
  s.data.foldr (fun c acc => utf8Bytes c ++ acc) []

/-- SHA-256 padding: append 0x80, zero fill, and the 64-bit bit length. -/
def padBytes (msg : List Nat) : List Nat :=
  let len := msg.length
  let k := (119 - len % 64) % 64
  msg ++ [128] ++ List.replicate k 0 ++
    (List.range 8).map (fun i => ((len * 8) >>> (8 * (7 - i))) % 256)

/-- Big-endian grouping of bytes into 32-bit words. -/
def toWords : List Nat → List Nat
  | b0 :: b1 :: b2 :: b3 :: rest =>
      (((b0 * 256 + b1) * 256 + b2) * 256 + b3) :: toWords rest
  | _ => []

/-- Splitting of the padded word list into 16-word blocks. -/
def toBlocks (ws : List Nat) : List (List Nat) :=
  match h : ws with
  | [] => []
  | _ :: rest => ws.take 16 :: toBlocks (rest.drop 15)
termination_by ws.length
decreasing_by
  simp only [h, List.length_cons, List.length_drop]
  omega

/-- Full SHA-256 of a byte list, as the eight word chaining state. -/
def sha256Words (msg : List Nat) : H8 :=
  (toBlocks (toWords (padBytes msg))).foldl compressBlock shaH0

/-- Lower-case hex digit of a nibble. -/
def hexChar (n : Nat) : Char :=
  if n < 10 then Char.ofNat (48 + n) else Char.ofNat (87 + n)

/-- Eight hex characters of one 32-bit word, most significant nibble first. -/
def wordHex (w : Nat) : List Char :=
  (List.range 8).map (fun i => hexChar ((w >>> (4 * (7 - i))) % 16))

/-- Embedding of hashlib hexdigest(): 64 lower-case hex characters. -/
def hexdigest (msg : List Nat) : String :=
  let st := sha256Words msg
  ⟨wordHex st.a ++ wordHex st.b ++ wordHex st.c ++ wordHex st.d ++
   wordHex st.e ++ wordHex st.f ++ wordHex st.g ++ wordHex st.h⟩

/-- Embedding of generate_grant_id (modal_app.py lines 85-88): the first 12
hex characters of the SHA-256 of "name.lower().strip()-provider.lower().strip()". -/
def generate_grant_id (name provider : String) : String :=
  let content := pyStrip (pyLower name) ++ "-" ++ pyStrip (pyLower provider)
  ⟨(hexdigest (strBytes content)).data.take 12⟩

/-! JSON values: the untyped tree json.loads produces. Numbers keep their
lexeme, object fields keep insertion order; key lookup takes the last
occurrence, as Python dict construction does. -/

/-- Parsed JSON value. -/
inductive JVal where
  | null : JVal
  | bool (b : Bool) : JVal
  | num (lexeme : String) : JVal
  | str (s : String) : JVal
  | arr (elems : List JVal) : JVal
  | obj (fields : List (String × JVal)) : JVal

/-- Dict lookup on parsed fields; the last binding of a key wins, matching
Python dict construction from duplicate JSON keys. -/
def jlookup (fields : List (String × JVal)) (k : String) : Option JVal :=
  fields.foldl (fun acc p => if p.1 = k then some p.2 else acc) none

/-- Dict assignment: replace the binding when the key exists, else append,
preserving insertion order as Python dicts do. -/
def jset (fields : List (String × JVal)) (k : String) (v : JVal) : List (String × JVal) :=
  if fields.any (fun p => p.1 = k) then
    fields.map (fun p => if p.1 = k then (k, v) else p)
  else fields ++ [(k, v)]

/-! Recursive-descent JSON parser embedding json.loads. Recursion is on a
fuel bound that always dominates the input length, so the parser is total;
on every input json.loads accepts, the fuel is never exhausted. -/

/-- JSON whitespace. -/
def jsonWs (c : Char) : Bool := c = ' ' || c = '\t' || c = '\n' || c = '\r'

/-- Value of one hex digit. -/
def hexVal (c : Char) : Option Nat :=
  if '0' ≤ c ∧ c ≤ '9' then some (c.toNat - 48)
  else if 'a' ≤ c ∧ c ≤ 'f' then some (c.toNat - 87)
  else if 'A' ≤ c ∧ c ≤ 'F' then some (c.toNat - 55)
  else none

/-- Four hex digits of a \u escape. -/
def parseHex4 : List Char → Option (Nat × List Char)
  | a :: b :: c :: d :: rest => do
      let x ← hexVal a
      let y ← hexVal b
      let z ← hexVal c
      let w ← hexVal d
      pure (((x * 16 + y) * 16 + z) * 16 + w, rest)
  | _ => none

/-- Body of a JSON string after the opening quote: escapes, the surrogate
pair rule of \u, and rejection of raw control characters. -/
def parseStrBody : Nat → List Char → List Char → Option (String × List Char)
  | 0, _, _ => none
  | _ + 1, [], _ => none
  | fuel + 1, c :: rest, acc =>
    if c = '"' then some (⟨acc.reverse⟩, rest)
    else if c = '\\' then
      match rest with
      | [] => none
      | e :: rest2 =>
        if e = '"' then parseStrBody fuel rest2 ('"' :: acc)
        else if e = '\\' then parseStrBody fuel rest2 ('\\' :: acc)
        else if e = '/' then parseStrBody fuel rest2 ('/' :: acc)
        else if e = 'b' then parseStrBody fuel rest2 (Char.ofNat 8 :: acc)
        else if e = 'f' then parseStrBody fuel rest2 (Char.ofNat 12 :: acc)
        else if e = 'n' then parseStrBody fuel rest2 ('\n' :: acc)
        else if e = 'r' then parseStrBody fuel rest2 ('\r' :: acc)
        else if e = 't' then parseStrBody fuel rest2 ('\t' :: acc)
        else if e = 'u' then
          match parseHex4 rest2 with
          | none => none
          | some (n, rest3) =>
            if 55296 ≤ n ∧ n ≤ 56319 then
              match rest3 with
              | c2 :: e2 :: rest4 =>
                if c2 = '\\' ∧ e2 = 'u' then
                  match parseHex4 rest4 with
                  | some (n2, rest5) =>
                    if 56320 ≤ n2 ∧ n2 ≤ 57343 then
                      parseStrBody fuel rest5
                        (Char.ofNat (65536 + (n - 55296) * 1024 + (n2 - 56320)) :: acc)
                    else parseStrBody fuel rest5 (Char.ofNat n2 :: Char.ofNat n :: acc)
                  | none => none
                else parseStrBody fuel rest3 (Char.ofNat n :: acc)
              | _ => parseStrBody fuel rest3 (Char.ofNat n :: acc)
            else parseStrBody fuel rest3 (Char.ofNat n :: acc)
        else none
    else if c.toNat < 32 then none
    else parseStrBody fuel rest (c :: acc)

/-- Longest digit run at the front of the input, and the rest. -/
def digitsSpan (cs : List Char) : List Char × List Char :=
  (cs.takeWhile Char.isDigit, cs.dropWhile Char.isDigit)

/-- Optional fraction part of a JSON number. -/
def parseFracPart (cs : List Char) : Option (List Char × List Char) :=
  match cs with
  | c :: rest =>
    if c = '.' then
      let p := digitsSpan rest
      if p.1.isEmpty then none else some (c :: p.1, p.2)
    else some ([], cs)
  | [] => some ([], [])

/-- Optional exponent part of a JSON number. -/
def parseExpPart (cs : List Char) : Option (List Char × List Char) :=
  match cs with
  | c :: rest =>
    if c = 'e' || c = 'E' then
      let sp := match rest with
        | s :: r2 => if s = '+' || s = '-' then (([s] : List Char), r2) else (([] : List Char), rest)
        | [] => (([] : List Char), ([] : List Char))
      let p := digitsSpan sp.2
      if p.1.isEmpty then none else some (c :: (sp.1 ++ p.1), p.2)
    else some ([], cs)
  | [] => some ([], [])

/-- Lexeme of a JSON number, with the no-leading-zero rule. -/
def parseNumLex (cs : List Char) : Option (List Char × List Char) :=
  let sp := match cs with
    | c :: rest => if c = '-' then (([c] : List Char), rest) else (([] : List Char), cs)
    | [] => (([] : List Char), ([] : List Char))
  let ip := digitsSpan sp.2
  if ip.1.isEmpty then none
  else if ip.1.length > 1 && ip.1.headD '0' = '0' then none
  else
    match parseFracPart ip.2 with
    | none => none
    | some fp =>
      match parseExpPart fp.2 with
      | none => none
      | some ep => some (sp.1 ++ ip.1 ++ fp.1 ++ ep.1, ep.2)

mutual

/-- Parse one JSON value, skipping leading whitespace. -/
def parseVal : Nat → List Char → Option (JVal × List Char)
  | 0, _ => none
  | fuel + 1, cs0 =>
    let cs := cs0.dropWhile jsonWs
    match cs with
    | [] => none
    | c :: rest =>
      if c = '"' then
        (parseStrBody (rest.length + 1) rest []).map (fun p => (JVal.str p.1, p.2))
      else if c = Char.ofNat 123 then parseObjStart fuel rest
      else if c = '[' then parseArrStart fuel rest
      else if c = 't' then
        if ("rue").data.isPrefixOf rest then some (JVal.bool true, rest.drop 3) else none
      else if c = 'f' then
        if ("alse").data.isPrefixOf rest then some (JVal.bool false, rest.drop 4) else none
      else if c = 'n' then
        if ("ull").data.isPrefixOf rest then some (JVal.null, rest.drop 3) else none
      else if c = 'N' then
        if ("aN").data.isPrefixOf rest then some (JVal.num ("NaN"), rest.drop 2) else none
      else if c = 'I' then
        if ("nfinity").data.isPrefixOf rest then some (JVal.num ("Infinity"), rest.drop 7) else none
      else if c = '-' && ("Infinity").data.isPrefixOf rest then
        some (JVal.num ("-Infinity"), rest.drop 8)
      else
        match parseNumLex (c :: rest) with
        | some (lex, r) => some (JVal.num ⟨lex⟩, r)
        | none => none

/-- Parse the inside of an array, just after the opening bracket. -/
def parseArrStart : Nat → List Char → Option (JVal × List Char)
  | 0, _ => none
  | fuel + 1, cs0 =>
    let cs := cs0.dropWhile jsonWs
    match cs with
    | [] => none
    | c :: rest =>
      if c = ']' then some (JVal.arr [], rest)
      else
        match parseVal fuel cs with
        | some (v, r) => parseArrRest fuel r [v]
        | none => none

/-- Parse the remaining elements of an array after at least one element. -/
def parseArrRest : Nat → List Char → List JVal → Option (JVal × List Char)
  | 0, _, _ => none
  | fuel + 1, cs0, acc =>
    let cs := cs0.dropWhile jsonWs
    match cs with
    | [] => none
    | c :: rest =>
      if c = ',' then
        match parseVal fuel rest with
        | some (v, r) => parseArrRest fuel r (v :: acc)
        | none => none
      else if c = ']' then some (JVal.arr acc.reverse, rest)
      else none

/-- Parse the inside of an object, just after the opening brace. -/
def parseObjStart : Nat → List Char → Option (JVal × List Char)
  | 0, _ => none
  | fuel + 1, cs0 =>
    let cs := cs0.dropWhile jsonWs
    match cs with
    | [] => none
    | c :: rest =>
      if c = Char.ofNat 125 then some (JVal.obj [], rest)
      else if c = '"' then
        match parseStrBody (rest.length + 1) rest [] with
        | some (k, r1) => parseObjField fuel r1 [] k
        | none => none
      else none

/-- Parse the colon and value of one object member, then continue. -/
def parseObjField : Nat → List Char → List (String × JVal) → String → Option (JVal × List Char)
  | 0, _, _, _ => none
  | fuel + 1, cs0, acc, k =>
    let cs := cs0.dropWhile jsonWs
    match cs with
    | [] => none
    | c :: rest =>
      if c = ':' then
        match parseVal fuel rest with
        | some (v, r) => parseObjRest fuel r ((k, v) :: acc)
        | none => none
      else none

/-- Parse the separator after one object member: comma-key or closing brace. -/
def parseObjRest : Nat → List Char → List (String × JVal) → Option (JVal × List Char)
  | 0, _, _ => none
  | fuel + 1, cs0, acc =>
    let cs := cs0.dropWhile jsonWs
    match cs with
    | [] => none
    | c :: rest =>
      if c = ',' then
        let cs2 := rest.dropWhile jsonWs
        match cs2 with
        | q :: r2 =>
          if q = '"' then
            match parseStrBody (r2.length + 1) r2 [] with
            | some (k, r3) => parseObjField fuel r3 acc k
            | none => none
          else none
        | [] => none
      else if c = Char.ofNat 125 then some (JVal.obj acc.reverse, rest)
      else none

end

/-- Embedding of json.loads: parse one document, allow only surrounding
whitespace, and signal failure (JSONDecodeError) as none. -/
def json_loads (s : String) : Option JVal :=
  match parseVal (3 * s.length + 3) s.data with
  | some (v, rest) => if (rest.dropWhile jsonWs).isEmpty then some v else none
  | none => none

/-! Python substring operations used by the response munging. -/

/-- Containment test embedding the Python `in` operator on strings. -/
def containsSub (hay needle : List Char) : Bool :=
  match hay with
  | [] => needle.isEmpty
  | _ :: rest => needle.isPrefixOf hay || containsSub rest needle

/-- Index of the first occurrence of a substring, as Python str.find. -/
def findSub (hay needle : List Char) : Option Nat :=
  if needle.isPrefixOf hay then some 0
  else
    match hay with
    | [] => none
    | _ :: rest => (findSub rest needle).map (· + 1)

/-- Split worker: cut the input at every non-overlapping occurrence of the
separator, left to right. Fuel dominates the input length. -/
def splitSub (sep : List Char) : Nat → List Char → List Char → List (List Char)
  | 0, cs, cur => [cur.reverse ++ cs]
  | fuel + 1, cs, cur =>
    if sep.isPrefixOf cs ∧ ¬ sep.isEmpty then
      cur.reverse :: splitSub sep fuel (cs.drop sep.length) []
    else
      match cs with
      | [] => [cur.reverse]
      | c :: rest => splitSub sep fuel rest (c :: cur)

/-- Embedding of Python str.split(sep) for a non-empty separator. -/
def pySplit (s sep : String) : List String :=
  (splitSub sep.data (s.length + 1) s.data []).map (fun l => ⟨l⟩)

/-- List indexing with the empty string for the out-of-range case; the
source only indexes positions its guards guarantee to exist. -/
def pyIdx (l : List String) (i : Nat) : String := l.getD i ""

/-- Embedding of Python str.startswith. -/
def pyStartsWith (s pre : String) : Bool := pre.data.isPrefixOf s.data

/-- Bracket scan of the extractor (modal_app.py lines 313-323): walk the
characters counting depth; on the bracket closing the first one, return
the exclusive end index; 0 when never balanced. -/
def bracketScan : List Char → Nat → Int → Nat
  | [], _, _ => 0
  | c :: rest, i, cnt =>
    if c = '[' then bracketScan rest (i + 1) (cnt + 1)
    else if c = ']' then
      if cnt - 1 = 0 then i + 1 else bracketScan rest (i + 1) (cnt - 1)
    else bracketScan rest (i + 1) cnt

/-- Response munging of scrape_and_extract (lines 296-325): strip the code
fence, strip whitespace, seek the first open bracket, and truncate at its
depth-matched closing bracket. -/
def isolate_json_text (response_text : String) : String :=
  let json_text := response_text
  let json_text :=
    if containsSub json_text.data ("```json").data then
      pyIdx (pySplit (pyIdx (pySplit json_text ("```json")) 1) ("```")) 0
    else if containsSub json_text.data ("```").data then
      pyIdx (pySplit (pyIdx (pySplit json_text ("```")) 1) ("```")) 0
    else json_text
  let json_text := pyStrip json_text
  let json_text :=
    if ¬ pyStartsWith json_text ("[") then
      match findSub json_text.data ("[").data with
      | some idx => (⟨json_text.data.drop idx⟩ : String)
      | none => json_text
    else json_text
  if pyStartsWith json_text ("[") then
    let e := bracketScan json_text.data 0 0
    if e > 0 then ⟨json_text.data.take e⟩ else json_text
  else json_text

/-! The extractor proper: source descriptor, crawl and model oracles,
diagnostics, the schema gate, and annotation. -/

/-- Source descriptor (an entry of GRANT_SOURCES). -/
structure Source where
  name : String
  url : String
  type : String
  provider : String

/-- Outcome of the crawl collaborator: an exception inside the crawler
block, an unsuccessful result carrying its error message, or a rendered
page with optional markdown and optional html. A none markdown stands for
an absent or falsy markdown attribute; likewise for html. -/
inductive CrawlOutcome where
  | crawlExc (msg : String)
  | failure (errMsg : String)
  | success (markdown : Option String) (html : Option String)

/-- Outcome of the language-model collaborator: an exception anywhere in
the request path, or the text of the first content block. -/
inductive ModelOutcome where
  | exc (msg : String)
  | reply (text : String)

/-- Structured diagnostic record mirroring the debug_info dict keys. -/
structure DebugInfo where
  url : String
  content_length : Nat
  crawl_success : Bool
  error : Option String := none
  used_html_fallback : Bool := false
  content_preview : Option String := none
  claude_response_preview : Option String := none
  json_text_preview : Option String := none
  parsed_type : Option String := none
  parse_type_error : Option String := none
  grants_count_before_validation : Option Nat := none
  skip_reasons : List (Nat × String) := []
  json_error : Option String := none
  claude_error : Option String := none
  response_text_preview : Option String := none
  error_traceback : Option String := none

/-- Return value of scrape_and_extract: the grant list and the diagnostic. -/
structure ScrapeResult where
  grants : List JVal
  debug : DebugInfo

/-- Content selection of lines 244-257: markdown when truthy, else the
html fallback truncated to 50000, flagging the fallback. -/
def contentFromCrawl (markdown html : Option String) : String × Bool :=
  let content := match markdown with
    | some m => m
    | none => ""
  if content = "" ∨ content.length < 100 then
    (match html with
     | some htm => (⟨htm.data.take 50000⟩ : String)
     | none => "", true)
  else (content, false)

/-- Name of the Python runtime type of a parsed value, as str(type(x))
records it in the diagnostic. -/
def typeName : JVal → String
  | JVal.null => "NoneType"
  | JVal.bool _ => "bool"
  | JVal.num _ => "float"
  | JVal.str _ => "str"
  | JVal.arr _ => "list"
  | JVal.obj _ => "dict"

/-- Shape dispatch of lines 331-342: a dict is unwrapped through a list
valued grants key or treated as a single record, a list is taken as is,
anything else is the unexpected-type failure. -/
def grantsOfParsed (v : JVal) : Option (List JVal) :=
  match v with
  | JVal.obj fields =>
    match jlookup fields ("grants") with
    | some (JVal.arr gs) => some gs
    | _ => some [v]
  | JVal.arr gs => some gs
  | _ => none

/-- String test of the isinstance(x, str) gate. -/
def isStrVal : Option JVal → Bool
  | some (JVal.str _) => true
  | _ => false

/-- Per-record schema gate of lines 348-365, in source order: reject a
non-dict, a missing name, a missing provider, a non-string name, a
non-string provider; otherwise yield the record fields. -/
def grantCheck (g : JVal) : Except String (List (String × JVal)) :=
  match g with
  | JVal.obj fields =>
    if (jlookup fields ("name")).isNone then Except.error ("Missing name")
    else if (jlookup fields ("provider")).isNone then Except.error ("Missing provider")
    else if ¬ isStrVal (jlookup fields ("name")) then Except.error ("Name not string")
    else if ¬ isStrVal (jlookup fields ("provider")) then Except.error ("Provider not string")
    else Except.ok fields
  | _ => Except.error ("Not a dict")

/-- String payload of a lookup, for fields the gate proved to be strings. -/
def strOf (o : Option JVal) : String :=
  match o with
  | some (JVal.str s) => s
  | _ => ""

/-- Annotation of lines 367-371: source provenance keys and the computed
external_id fingerprint. -/
def annotate (source : Source) (fields : List (String × JVal)) : List (String × JVal) :=
  let f1 := jset fields ("source_url") (JVal.str source.url)
  let f2 := jset f1 ("source_name") (JVal.str source.name)
  let f3 := jset f2 ("source_type") (JVal.str source.type)
  jset f3 ("external_id")
    (JVal.str (generate_grant_id (strOf (jlookup f3 ("name"))) (strOf (jlookup f3 ("provider")))))

/-- Validation loop of lines 347-372: walk the recovered elements keeping
gate survivors annotated, and record each skip reason by position. -/
def validateLoop (source : Source) : List JVal → Nat → List JVal × List (Nat × String)
  | [], _ => ([], [])
  | g :: rest, i =>
    let p := validateLoop source rest (i + 1)
    match grantCheck g with
    | Except.error reason => (p.1, (i, reason) :: p.2)
    | Except.ok fields => (JVal.obj (annotate source fields) :: p.1, p.2)

/-- Embedding of scrape_and_extract (lines 211-391) with the crawl and
model collaborators passed as oracle outcomes: every failure mode folds
into an empty grant list plus a diagnostic, never an escaping exception. -/
def scrape_and_extract (source : Source) (crawl : CrawlOutcome) (model : ModelOutcome) : ScrapeResult :=
  let debug0 : DebugInfo := { url := source.url, content_length := 0, crawl_success := false }
  match crawl with
  | CrawlOutcome.crawlExc msg => ⟨[], { debug0 with error := some msg }⟩
  | CrawlOutcome.failure err => ⟨[], { debug0 with error := some err }⟩
  | CrawlOutcome.success markdown html =>
    let cf := contentFromCrawl markdown html
    let debug1 := { debug0 with
      crawl_success := true,
      used_html_fallback := cf.2,
      content_length := cf.1.length,
      content_preview := some (⟨cf.1.data.take 500⟩ : String) }
    if cf.1 = "" ∨ cf.1.length < 100 then ⟨[], debug1⟩
    else
      let _content : String := ⟨cf.1.data.take 50000⟩
      match model with
      | ModelOutcome.exc msg =>
        ⟨[], { debug1 with
          claude_error := some msg,
          error_traceback := some msg,
          response_text_preview := some ("N/A"),
          json_text_preview := some ("N/A") }⟩
      | ModelOutcome.reply response_text =>
        let debug2 := { debug1 with
          claude_response_preview := some (⟨response_text.data.take 1000⟩ : String) }
        let json_text := isolate_json_text response_text
        let debug3 := { debug2 with
          json_text_preview :=
            some (if json_text = "" then "N/A" else (⟨json_text.data.take 500⟩ : String)) }
        match json_loads json_text with
        | none =>
          ⟨[], { debug3 with
            json_error := some ("JSONDecodeError"),
            response_text_preview := some (⟨response_text.data.take 1000⟩ : String) }⟩
        | some parsed =>
          let debug4 := { debug3 with parsed_type := some (typeName parsed) }
          match grantsOfParsed parsed with
          | none =>
            ⟨[], { debug4 with parse_type_error := some ("Unexpected type: " ++ typeName parsed) }⟩
          | some grants =>
            let debug5 := { debug4 with grants_count_before_validation := some grants.length }
            let vp := validateLoop source grants 0
            ⟨vp.1, { debug5 with skip_reasons := vp.2 }⟩

/-! Grant dictionaries past the extractor. A Python dict field that may be
absent or hold None is a two-level option: the outer level is key
presence, the inner level is the null. -/

/-- Typed view of a scraped grant dict entering dedupe, the liveness
filter, and the upsert engine. -/
structure GrantDict where
  name : String
  provider : String
  external_id : String := ""
  source_url : Option (Option String) := none
  source_name : Option (Option String) := none
  source_type : Option (Option String) := none
  amount_min : Option (Option Int) := none
  amount_max : Option (Option Int) := none
  deadline : Option (Option String) := none
  description : Option (Option String) := none
  sectors : Option (Option (List String)) := none
  stages : Option (Option (List String)) := none
  eligibility_criteria : Option (Option JVal) := none
  application_url : Option (Option String) := none
  contact_email : Option (Option String) := none
  is_active : Option (Option Bool) := none

/-- Embedding of dict.get(key, default): the default replaces an absent
key only, never an explicit None value. -/
def pyGet {α : Type} (f : Option (Option α)) (dflt : α) : Option α :=
  match f with
  | none => some dflt
  | some v => v

/-- Embedding of dict.get(key) with no default. -/
def pyGetN {α : Type} (f : Option (Option α)) : Option α :=
  match f with
  | none => none
  | some v => v

/-- Embedding of the Python `or` on a nullable string with a string right
operand: the right operand replaces None and the empty string. -/
def pyOrStr (a : Option String) (b : String) : String :=
  match a with
  | some s => if s = "" then b else s
  | none => b

/-- Embedding of the Python `or` on two nullable strings. -/
def pyOrOpt (a b : Option String) : Option String :=
  match a with
  | some s => if s = "" then b else some s
  | none => b

/-- Effective outbound URL of a record: the expression
grant.get("application_url") or grant.get("source_url", ""), as written at
modal_app.py line 109 and again at line 448. -/
def effective_url (grant : GrantDict) : Option String :=
  pyOrOpt (pyGetN grant.application_url) (pyGet grant.source_url (""))

/-! Deduplication step of run_full_scrape (lines 507-513). -/

/-- Loop of the dedup pass: seen fingerprints accumulate, a record is kept
exactly when its external_id was not seen yet. -/
def dedupeLoop : List String → List GrantDict → List GrantDict
  | _, [] => []
  | seen, g :: rest =>
    if g.external_id ∈ seen then dedupeLoop seen rest
    else g :: dedupeLoop (g.external_id :: seen) rest

/-- Dedup entry point: run the pass with nothing seen. -/
def dedupe (grants : List GrantDict) : List GrantDict := dedupeLoop [] grants

/-- Specification-side restatement of deduplication, written from the
spec's words for comparison with the code's pass: keep each record, then
recursively keep the later records whose fingerprint differs — i.e. keep
exactly first occurrences in arrival order. -/
def dedupeSpec : List GrantDict → List GrantDict
  | [] => []
  | g :: rest =>
    g :: dedupeSpec (rest.filter (fun h2 => h2.external_id ≠ g.external_id))
termination_by l => l.length
decreasing_by
  simp only [List.length_cons]
  exact Nat.lt_succ_of_le (List.length_filter_le _ _)

/-! Liveness filter: validate_grant_urls (lines 91-143). The HEAD and GET
collaborators are oracles from URL to request outcome. -/

/-- Outcome of one HTTP request as the source distinguishes them: a
response with its resolved (post-redirect) status, an httpx
HTTPStatusError, a timeout, or any other exception. -/
inductive ReqResult where
  | status (code : Nat)
  | httpStatusError
  | timeoutExc
  | otherExc (msg : String)
deriving DecidableEq, Repr

/-- Error view of a probe as the outer except clauses classify it. -/
inductive ProbeErr where
  | timeout
  | other (msg : String)
deriving DecidableEq, Repr

/-- Outer-handler view of one completed request: a status, or the
exception class the outer try would catch. -/
def statusOrExc : ReqResult → Except ProbeErr Nat
  | ReqResult.status c => Except.ok c
  | ReqResult.timeoutExc => Except.error ProbeErr.timeout
  | ReqResult.otherExc m => Except.error (ProbeErr.other m)
  | ReqResult.httpStatusError => Except.error (ProbeErr.other ("HTTPStatusError"))

/-- Probe of lines 116-121: HEAD first; only an HTTPStatusError from the
HEAD triggers the single GET fallback, whose outcome then decides. -/
def probe (head get : String → ReqResult) (u : String) : Except ProbeErr Nat :=
  match head u with
  | ReqResult.httpStatusError => statusOrExc (get u)
  | ReqResult.status c => Except.ok c
  | ReqResult.timeoutExc => Except.error ProbeErr.timeout
  | ReqResult.otherExc m => Except.error (ProbeErr.other m)

/-- Exclusion record appended to filtered_grants (lines 125-130). -/
structure FilteredRec where
  name : String
  provider : String
  url : String
  reason : String
deriving DecidableEq, Repr

/-- Per-record verdict of the liveness filter. -/
inductive Verdict where
  | keep
  | filtered (r : FilteredRec)
deriving DecidableEq, Repr

/-- Decision of lines 108-141 for one grant: no effective URL keeps it; a
resolved 404 excludes it with the reason record; every other status,
timeout, or error keeps it. -/
def urlVerdict (head get : String → ReqResult) (grant : GrantDict) : Verdict :=
  match effective_url grant with
  | none => Verdict.keep
  | some u =>
    if u = "" then Verdict.keep
    else
      match probe head get u with
      | Except.ok code =>
        if code = 404 then Verdict.filtered ⟨grant.name, grant.provider, u, "404 Not Found"⟩
        else Verdict.keep
      | Except.error _ => Verdict.keep

/-- Embedding of validate_grant_urls: split the batch into kept grants and
exclusion records, preserving order. -/
def validate_grant_urls (head get : String → ReqResult) : List GrantDict → List GrantDict × List FilteredRec
  | [] => ([], [])
  | grant :: rest =>
    let p := validate_grant_urls head get rest
    match urlVerdict head get grant with
    | Verdict.keep => (grant :: p.1, p.2)
    | Verdict.filtered r => (p.1, r :: p.2)

/-! Reconciler: upsert_grants (lines 398-470). Storage is an explicit row
list; the per-record try/except becomes a per-index failure oracle. -/

/-- Row payload written to the grants table (lines 437-452). -/
structure GrantData where
  name : String
  provider : String
  provider_type : String
  amount_min : Option Int
  amount_max : Option Int
  deadline : Option String
  description : String
  sectors : Option (List String)
  stages : Option (List String)
  eligibility_criteria : Option JVal
  url : Option String
  contact_email : Option String
  is_active : Option Bool
  updated_at : String

/-- Stored row: the written payload plus the insert-time creation stamp. -/
structure StoredGrant where
  data : GrantData
  created_at : String

/-- Result counters of upsert_grants. -/
structure UpsertCounts where
  inserted : Nat
  updated : Nat
  errors : Nat
deriving DecidableEq, Repr

/-- Source-type to provider-type mapping of lines 428-434. -/
def provider_type_map : List (String × String) :=
  [("government", "government"), ("csr", "csr"), ("aggregator", "private"),
   ("private", "private"), ("ngo", "ngo")]

/-- Embedding of provider_type_map.get(source_type, "government") where
source_type may be None. -/
def mapGetD (m : List (String × String)) (k : Option String) (d : String) : String :=
  match k with
  | none => d
  | some key =>
    match m.lookup key with
    | some v => v
    | none => d

/-- Payload construction of lines 427-452, including every field default. -/
def grant_data (grant : GrantDict) (now : String) : GrantData :=
  let source_type := pyGet grant.source_type ("government")
  { name := grant.name
    provider := grant.provider
    provider_type := mapGetD provider_type_map source_type ("government")
    amount_min := pyGetN grant.amount_min
    amount_max := pyGetN grant.amount_max
    deadline := pyGetN grant.deadline
    description := pyOrStr (pyGet grant.description ("")) ("No description available")
    sectors := pyGet grant.sectors []
    stages := pyGet grant.stages []
    eligibility_criteria := pyGet grant.eligibility_criteria (JVal.obj [])
    url := effective_url grant
    contact_email := pyGetN grant.contact_email
    is_active := pyGet grant.is_active true
    updated_at := now }

/-- Existence test of lines 417-423: a stored row with the same name and
provider. -/
def rowMatches (grant : GrantDict) (r : StoredGrant) : Bool :=
  r.data.name == grant.name && r.data.provider == grant.provider

/-- Loop of lines 414-468 over one batch: a failing index counts an error
and changes nothing; otherwise a matching row set is overwritten and
counted as updated, or a fresh row is appended with its creation stamp and
counted as inserted; the rest of the batch is processed either way. -/
def upsertLoop (now : String) : List GrantDict → (Nat → Bool) → List StoredGrant → List StoredGrant × UpsertCounts
  | [], _, db => (db, ⟨0, 0, 0⟩)
  | grant :: rest, fails, db =>
    if fails 0 then
      let p := upsertLoop now rest (fun i => fails (i + 1)) db
      (p.1, ⟨p.2.inserted, p.2.updated, p.2.errors + 1⟩)
    else
      let gd := grant_data grant now
      if db.any (rowMatches grant) then
        let db1 := db.map (fun r => if rowMatches grant r then ⟨gd, r.created_at⟩ else r)
        let p := upsertLoop now rest (fun i => fails (i + 1)) db1
        (p.1, ⟨p.2.inserted, p.2.updated + 1, p.2.errors⟩)
      else
        let p := upsertLoop now rest (fun i => fails (i + 1)) (db ++ [⟨gd, now⟩])
        (p.1, ⟨p.2.inserted + 1, p.2.updated, p.2.errors⟩)

/-- Embedding of upsert_grants: the empty batch returns zero counters at
once (line 402), otherwise the loop runs over the whole batch. -/
def upsert_grants (grants : List GrantDict) (fails : Nat → Bool) (now : String) (db : List StoredGrant) : List StoredGrant × UpsertCounts :=
  if grants.isEmpty then (db, ⟨0, 0, 0⟩) else upsertLoop now grants fails db

/-! Sample inputs used by witness and counterexample theorems. -/

/-- Sample source descriptor. -/
def sampleSource : Source :=
  ⟨"SISFS Seed Fund", "https://seedfund.example/", "government", "Startup India"⟩

/-- Sample successful crawl with ample markdown content. -/
def sampleCrawl : CrawlOutcome :=
  CrawlOutcome.success (some ⟨List.replicate 150 'x'⟩) none

/-- Sample model response: fenced JSON array with trailing prose. -/
def sampleResponse : String :=
  "```json\n[\x7b\"name\":\"A\",\"provider\":\"B\"\x7d]\n``` extra trailing text"

/-- Payload of the sample response once the fence and prose are gone. -/
def samplePayload : String := "[\x7b\"name\":\"A\",\"provider\":\"B\"\x7d]"

/-- Lookup of a key on a record when the record is an object. -/
def jget (g : JVal) (k : String) : Option JVal :=
  match g with
  | JVal.obj fs => jlookup fs k
  | _ => none

/-- Sample grant dict with only the required fields. -/
def sampleGrantA : GrantDict := { name := "Seed Grant", provider := "Agency X" }

/-- Sample grant dict sharing the identity key of sampleGrantA with a
changed description. -/
def sampleGrantA2 : GrantDict :=
  { name := "Seed Grant", provider := "Agency X", description := some (some "newer text") }

/-- Sample grant dict with a distinct identity key. -/
def sampleGrantB : GrantDict := { name := "Other Grant", provider := "Agency Y" }

/-! Helper lemmas. -/

/-- Each hex word prints as exactly eight characters. -/
theorem wordHex_length (w : Nat) : (wordHex w).length = 8 := by
  simp [wordHex]

/-- Hexdigest always prints 64 characters. -/
theorem hexdigest_length (msg : List Nat) : (hexdigest msg).data.length = 64 := by
  simp [hexdigest, wordHex_length]

/-- Unfolding of the dedup loop on a cons cell. -/
theorem dedupeLoop_cons (seen : List String) (g : GrantDict) (rest : List GrantDict) :
    dedupeLoop seen (g :: rest) =
      if g.external_id ∈ seen then dedupeLoop seen rest
      else g :: dedupeLoop (g.external_id :: seen) rest := rfl

/-- Unfolding of the spec pass on a cons cell. -/
theorem dedupeSpec_cons (g : GrantDict) (rest : List GrantDict) :
    dedupeSpec (g :: rest) =
      g :: dedupeSpec (rest.filter (fun h2 => h2.external_id ≠ g.external_id)) := by
  rw [dedupeSpec.eq_def]

/-- Dedup loop against arbitrary seen fingerprints equals the spec pass on
the records whose fingerprint is not yet seen. -/
theorem dedupeLoop_eq_spec (gs : List GrantDict) :
    ∀ seen : List String,
      dedupeLoop seen gs = dedupeSpec (gs.filter (fun g => g.external_id ∉ seen)) := by
  induction gs with
  | nil => intro seen; simp [dedupeLoop, dedupeSpec]
  | cons g rest ih =>
    intro seen
    by_cases hc : g.external_id ∈ seen
    · rw [dedupeLoop_cons, if_pos hc, List.filter_cons_of_neg (by simpa using hc)]
      exact ih seen
    · rw [dedupeLoop_cons, if_neg hc, List.filter_cons_of_pos (by simpa using hc)]
      rw [dedupeSpec_cons, ih (g.external_id :: seen), List.filter_filter]
      refine congrArg (fun l => g :: dedupeSpec l) (List.filter_congr (fun a _ => ?_))
      by_cases h1 : a.external_id = g.external_id <;>
        by_cases h2 : a.external_id ∈ seen <;>
          simp [List.mem_cons, h1, h2]

/-- Dedup loop is idempotent for every seen set. -/
theorem dedupeLoop_idem (gs : List GrantDict) :
    ∀ seen : List String, dedupeLoop seen (dedupeLoop seen gs) = dedupeLoop seen gs := by
  induction gs with
  | nil => intro seen; simp [dedupeLoop]
  | cons g rest ih =>
    intro seen
    by_cases hc : g.external_id ∈ seen
    · rw [dedupeLoop_cons, if_pos hc]
      exact ih seen
    · rw [dedupeLoop_cons, if_neg hc, dedupeLoop_cons, if_neg hc, ih (g.external_id :: seen)]

/-- Dedup output is a sublist of the input: relative order is preserved
and no new records appear. -/
theorem dedupeLoop_sublist (gs : List GrantDict) :
    ∀ seen : List String, List.Sublist (dedupeLoop seen gs) gs := by
  induction gs with
  | nil => intro seen; simp [dedupeLoop]
  | cons g rest ih =>
    intro seen
    by_cases hc : g.external_id ∈ seen
    · rw [dedupeLoop_cons, if_pos hc]
      exact (ih seen).cons g
    · rw [dedupeLoop_cons, if_neg hc]
      exact (ih (g.external_id :: seen)).cons₂ g

/-! Claim theorems. -/

/-- C1: for every two (name, provider) string pairs whose lower-cased,
whitespace-trimmed forms are equal, generate_grant_id returns the identical
fingerprint, and the fingerprint is a fixed-length 12-character token
computed purely from the normalized name and provider. -/
theorem C1_fingerprint_deterministic_and_fixed_length :
    (∀ n p n2 p2 : String,
      pyStrip (pyLower n) = pyStrip (pyLower n2) →
      pyStrip (pyLower p) = pyStrip (pyLower p2) →
      generate_grant_id n p = generate_grant_id n2 p2)
  ∧ (∀ n p : String, (generate_grant_id n p).length = 12) := by
  constructor
  · intro n p n2 p2 hn hp
    simp only [generate_grant_id, hn, hp]
  · intro n p
    have h64 := hexdigest_length (strBytes (pyStrip (pyLower n) ++ "-" ++ pyStrip (pyLower p)))
    simp [generate_grant_id, String.length, List.length_take, h64]

/-- Witness for C1 at concrete inputs differing only in case and
surrounding whitespace. -/
theorem C1_witness :
    pyStrip (pyLower ("  Seed Grant")) = pyStrip (pyLower ("seed grant ")) ∧
    pyStrip (pyLower ("Agency X")) = pyStrip (pyLower (" AGENCY X")) ∧
    generate_grant_id ("  Seed Grant") ("Agency X") = generate_grant_id ("seed grant ") (" AGENCY X") ∧
    (generate_grant_id ("a") ("b")).length = 12 :=
  ⟨by decide, by decide,
   C1_fingerprint_deterministic_and_fixed_length.1 _ _ _ _ (by decide) (by decide),
   C1_fingerprint_deterministic_and_fixed_length.2 ("a") ("b")⟩

/-- C3: the dedup pass of run_full_scrape keeps exactly the records whose
fingerprint has not occurred earlier in the sequence (the spec-side
first-occurrence pass), preserves relative order (its output is a sublist
of its input), and is idempotent. -/
theorem C3_dedupe_first_occurrence_and_idempotent :
    (∀ gs : List GrantDict, dedupe gs = dedupeSpec gs)
  ∧ (∀ gs : List GrantDict, List.Sublist (dedupe gs) gs)
  ∧ (∀ gs : List GrantDict, dedupe (dedupe gs) = dedupe gs) := by
  refine ⟨fun gs => ?_, fun gs => dedupeLoop_sublist gs [], fun gs => dedupeLoop_idem gs []⟩
  have h := dedupeLoop_eq_spec gs []
  simpa using h

/-- Counter sum of the upsert loop: every record of the batch lands in
exactly one of the three counters. -/
theorem upsertLoop_sum (now : String) (grants : List GrantDict) :
    ∀ (fails : Nat → Bool) (db : List StoredGrant),
      (upsertLoop now grants fails db).2.inserted +
        (upsertLoop now grants fails db).2.updated +
        (upsertLoop now grants fails db).2.errors = grants.length := by
  induction grants with
  | nil => intro fails db; simp [upsertLoop]
  | cons g rest ih =>
    intro fails db
    by_cases hf : fails 0
    · have h := ih (fun i => fails (i + 1)) db
      simp only [upsertLoop, hf, if_true, List.length_cons]
      omega
    · by_cases hm : db.any (rowMatches g)
      · have h := ih (fun i => fails (i + 1))
          (db.map (fun r => if rowMatches g r then ⟨grant_data g now, r.created_at⟩ else r))
        simp only [upsertLoop, hf, hm, if_true, Bool.false_eq_true, if_false, List.length_cons]
        omega
      · have h := ih (fun i => fails (i + 1)) (db ++ [⟨grant_data g now, now⟩])
        simp only [upsertLoop, hf, hm, Bool.false_eq_true, if_false, List.length_cons]
        omega

/-- C2: over any batch, inserted + updated + errors equals the batch
length; a failing record is counted as an error while the rest of the
batch is still processed against the unchanged store; a non-failing record
with no stored (name, provider) match is appended with creation and update
stamps set to now and counted as inserted; a non-failing record with a
stored match overwrites the matching rows (keeping their creation stamps)
and is counted as updated; and the written payload always carries the
update stamp. -/
theorem C2_upsert_counter_partition :
    (∀ (grants : List GrantDict) (fails : Nat → Bool) (now : String) (db : List StoredGrant),
       (upsert_grants grants fails now db).2.inserted +
         (upsert_grants grants fails now db).2.updated +
         (upsert_grants grants fails now db).2.errors = grants.length)
  ∧ (∀ (g : GrantDict) (rest : List GrantDict) (fails : Nat → Bool) (now : String) (db : List StoredGrant),
       fails 0 = true →
       upsert_grants (g :: rest) fails now db =
         ((upsertLoop now rest (fun i => fails (i + 1)) db).1,
          ⟨(upsertLoop now rest (fun i => fails (i + 1)) db).2.inserted,
           (upsertLoop now rest (fun i => fails (i + 1)) db).2.updated,
           (upsertLoop now rest (fun i => fails (i + 1)) db).2.errors + 1⟩))
  ∧ (∀ (g : GrantDict) (fails : Nat → Bool) (now : String) (db : List StoredGrant),
       fails 0 = false → db.any (rowMatches g) = false →
       upsert_grants [g] fails now db = (db ++ [⟨grant_data g now, now⟩], ⟨1, 0, 0⟩))
  ∧ (∀ (g : GrantDict) (fails : Nat → Bool) (now : String) (db : List StoredGrant),
       fails 0 = false → db.any (rowMatches g) = true →
       upsert_grants [g] fails now db =
         (db.map (fun r => if rowMatches g r then ⟨grant_data g now, r.created_at⟩ else r),
          ⟨0, 1, 0⟩))
  ∧ (∀ (g : GrantDict) (fails : Nat → Bool) (now : String) (db : List StoredGrant),
       fails 0 = true → upsert_grants [g] fails now db = (db, ⟨0, 0, 1⟩))
  ∧ (∀ (g : GrantDict) (now : String), (grant_data g now).updated_at = now) := by
  refine ⟨?_, ?_, ?_, ?_, ?_, fun g now => rfl⟩
  · intro grants fails now db
    cases grants with
    | nil => simp [upsert_grants]
    | cons g rest =>
      have h := upsertLoop_sum now (g :: rest) fails db
      simpa [upsert_grants] using h
  · intro g rest fails now db hf
    simp [upsert_grants, upsertLoop, hf]
  · intro g fails now db hf hm
    simp [upsert_grants, upsertLoop, hf, hm]
  · intro g fails now db hf hm
    simp [upsert_grants, upsertLoop, hf, hm]
  · intro g fails now db hf
    simp [upsert_grants, upsertLoop, hf]

/-- Witness for C2: a fresh record is inserted, a second sighting with a
changed description updates in place keeping the creation stamp, and a
failing record only counts an error. -/
theorem C2_witness :
    upsert_grants [sampleGrantA] (fun _ => false) ("t1") [] =
      ([⟨grant_data sampleGrantA ("t1"), "t1"⟩], ⟨1, 0, 0⟩) ∧
    upsert_grants [sampleGrantA2] (fun _ => false) ("t2")
        [⟨grant_data sampleGrantA ("t1"), "t1"⟩] =
      ([⟨grant_data sampleGrantA2 ("t2"), "t1"⟩], ⟨0, 1, 0⟩) ∧
    upsert_grants [sampleGrantB] (fun _ => true) ("t3") [] = ([], ⟨0, 0, 1⟩) :=
  ⟨C2_upsert_counter_partition.2.2.1 sampleGrantA (fun _ => false) ("t1") [] rfl rfl,
   C2_upsert_counter_partition.2.2.2.1 sampleGrantA2 (fun _ => false) ("t2")
     [⟨grant_data sampleGrantA ("t1"), "t1"⟩] rfl rfl,
   C2_upsert_counter_partition.2.2.2.2.1 sampleGrantB (fun _ => true) ("t3") [] rfl⟩

/-- Counterexample for C8 as stated: a record with no description key is
written with the non-empty placeholder text, not an empty description
string, and a record whose sectors key holds an explicit null is written
with a null sectors value, not an empty array. -/
theorem C8_counterexample :
    (grant_data { name := "G", provider := "P", sectors := some none } ("t")).description ≠ ""
  ∧ (grant_data { name := "G", provider := "P", sectors := some none } ("t")).sectors ≠ some [] := by
  exact ⟨by decide, by decide⟩

/-- C8 amended: a missing optional field is written as an explicit neutral
value — the placeholder description text "No description available", empty
sectors and stages arrays, and an empty eligibility object — and a null or
empty description also becomes the placeholder, while an explicit null for
sectors, stages, or eligibility is written through as null. -/
theorem C8_amended_field_defaults (g : GrantDict) (now : String) :
    (g.description = none → (grant_data g now).description = "No description available")
  ∧ (g.description = some none → (grant_data g now).description = "No description available")
  ∧ (g.description = some (some "") → (grant_data g now).description = "No description available")
  ∧ (∀ s : String, g.description = some (some s) → s ≠ "" → (grant_data g now).description = s)
  ∧ (g.sectors = none → (grant_data g now).sectors = some [])
  ∧ (g.sectors = some none → (grant_data g now).sectors = none)
  ∧ (g.stages = none → (grant_data g now).stages = some [])
  ∧ (g.stages = some none → (grant_data g now).stages = none)
  ∧ (g.eligibility_criteria = none → (grant_data g now).eligibility_criteria = some (JVal.obj []))
  ∧ (g.eligibility_criteria = some none → (grant_data g now).eligibility_criteria = none) := by
  refine ⟨?_, ?_, ?_, ?_, ?_, ?_, ?_, ?_, ?_, ?_⟩ <;>
    first
      | (intro h; simp [grant_data, pyGet, pyOrStr, h])
      | (intro s h hs; simp [grant_data, pyGet, pyOrStr, h, hs])

/-- Witness for C8 amended at concrete records. -/
theorem C8_amended_witness :
    (grant_data { name := "G", provider := "P" } ("t")).description = "No description available"
  ∧ (grant_data { name := "G", provider := "P" } ("t")).sectors = some []
  ∧ (grant_data { name := "G", provider := "P", stages := some none } ("t")).stages = none
  ∧ (grant_data { name := "G", provider := "P", description := some (some "fine") } ("t")).description = "fine" :=
  ⟨(C8_amended_field_defaults { name := "G", provider := "P" } ("t")).1 rfl,
   (C8_amended_field_defaults { name := "G", provider := "P" } ("t")).2.2.2.2.1 rfl,
   (C8_amended_field_defaults { name := "G", provider := "P", stages := some none } ("t")).2.2.2.2.2.2.2.1 rfl,
   (C8_amended_field_defaults { name := "G", provider := "P", description := some (some "fine") } ("t")).2.2.2.1
     ("fine") rfl (by decide)⟩

/-- C10: a grant dict with no is_active key is written with is_active
true, while an explicitly supplied value, false and null included, is
written through unchanged. -/
theorem C10_is_active_defaults_true (g : GrantDict) (now : String) :
    (g.is_active = none → (grant_data g now).is_active = some true)
  ∧ (∀ v : Option Bool, g.is_active = some v → (grant_data g now).is_active = v) := by
  constructor
  · intro h; simp [grant_data, pyGet, h]
  · intro v h; simp [grant_data, pyGet, h]

/-- Witness for C10: the key absent yields true, an explicit false stays
false. -/
theorem C10_witness :
    (grant_data { name := "G", provider := "P" } ("t")).is_active = some true
  ∧ (grant_data { name := "G", provider := "P", is_active := some (some false) } ("t")).is_active =
      some false :=
  ⟨(C10_is_active_defaults_true { name := "G", provider := "P" } ("t")).1 rfl,
   (C10_is_active_defaults_true { name := "G", provider := "P", is_active := some (some false) } ("t")).2
     (some false) rfl⟩

/-- Sample grant whose effective URL is its application link. -/
def sampleDead : GrantDict :=
  { name := "Dead Grant", provider := "Agency Z",
    application_url := some (some "https://dead.example/x") }

/-- C4: a record is excluded exactly when it has a non-empty effective URL
whose probe resolves to status 404; the exclusion carries the record name,
provider, probed URL, and the not-found reason; a record with no effective
URL, a timeout, any other error, or any non-404 status is kept; and the
batch function keeps exactly the keep-verdict records and collects exactly
the exclusion records, in order. -/
theorem C4_liveness_excludes_404_only (head get : String → ReqResult) (grant : GrantDict) :
    ((∃ r : FilteredRec, urlVerdict head get grant = Verdict.filtered r) ↔
       (∃ u : String, effective_url grant = some u ∧ u ≠ "" ∧ probe head get u = Except.ok 404))
  ∧ (∀ u : String, effective_url grant = some u → u ≠ "" → probe head get u = Except.ok 404 →
       urlVerdict head get grant =
         Verdict.filtered ⟨grant.name, grant.provider, u, "404 Not Found"⟩)
  ∧ (effective_url grant = none → urlVerdict head get grant = Verdict.keep)
  ∧ (effective_url grant = some "" → urlVerdict head get grant = Verdict.keep)
  ∧ (∀ u : String, effective_url grant = some u → probe head get u = Except.error ProbeErr.timeout →
       urlVerdict head get grant = Verdict.keep)
  ∧ (∀ (u m : String), effective_url grant = some u →
       probe head get u = Except.error (ProbeErr.other m) →
       urlVerdict head get grant = Verdict.keep)
  ∧ (∀ (u : String) (c : Nat), effective_url grant = some u → probe head get u = Except.ok c →
       c ≠ 404 → urlVerdict head get grant = Verdict.keep)
  ∧ (∀ gs : List GrantDict,
       (validate_grant_urls head get gs).1 =
         gs.filter (fun g2 => urlVerdict head get g2 = Verdict.keep)
     ∧ (validate_grant_urls head get gs).2 =
         gs.filterMap (fun g2 =>
           match urlVerdict head get g2 with
           | Verdict.keep => none
           | Verdict.filtered r => some r)) := by
  refine ⟨⟨?_, ?_⟩, ?_, ?_, ?_, ?_, ?_, ?_, ?_⟩
  · rintro ⟨r, hr⟩
    cases hu : effective_url grant with
    | none => simp [urlVerdict, hu] at hr
    | some u =>
      by_cases hemp : u = ""
      · simp [urlVerdict, hu, hemp] at hr
      · cases hp : probe head get u with
        | ok c =>
          by_cases h4 : c = 404
          · exact ⟨u, rfl, hemp, h4 ▸ hp⟩
          · simp [urlVerdict, hu, hemp, hp, h4] at hr
        | error e => simp [urlVerdict, hu, hemp, hp] at hr
  · rintro ⟨u, hu, hemp, hp⟩
    exact ⟨⟨grant.name, grant.provider, u, "404 Not Found"⟩, by simp [urlVerdict, hu, hemp, hp]⟩
  · intro u hu hemp hp
    simp [urlVerdict, hu, hemp, hp]
  · intro h
    simp [urlVerdict, h]
  · intro h
    simp [urlVerdict, h]
  · intro u hu hp
    by_cases hemp : u = "" <;> simp [urlVerdict, hu, hemp, hp]
  · intro u m hu hp
    by_cases hemp : u = "" <;> simp [urlVerdict, hu, hemp, hp]
  · intro u c hu hp h4
    by_cases hemp : u = "" <;> simp [urlVerdict, hu, hemp, hp, h4]
  · intro gs
    induction gs with
    | nil => exact ⟨rfl, rfl⟩
    | cons g2 rest ih =>
      cases hv : urlVerdict head get g2 with
      | keep =>
        exact ⟨by simp [validate_grant_urls, hv, ih.1, List.filter_cons],
               by simp [validate_grant_urls, hv, ih.2, List.filterMap_cons]⟩
      | filtered r =>
        exact ⟨by simp [validate_grant_urls, hv, ih.1, List.filter_cons],
               by simp [validate_grant_urls, hv, ih.2, List.filterMap_cons]⟩

/-- Witness for C4: a 404 probe excludes with the full reason record; a
timeout, a connection error, and an empty effective URL all keep. -/
theorem C4_witness :
    urlVerdict (fun _ => ReqResult.status 404) (fun _ => ReqResult.otherExc ("x")) sampleDead =
      Verdict.filtered ⟨"Dead Grant", "Agency Z", "https://dead.example/x", "404 Not Found"⟩
  ∧ urlVerdict (fun _ => ReqResult.timeoutExc) (fun _ => ReqResult.otherExc ("x")) sampleDead =
      Verdict.keep
  ∧ urlVerdict (fun _ => ReqResult.otherExc ("connection refused"))
      (fun _ => ReqResult.otherExc ("x")) sampleDead = Verdict.keep
  ∧ urlVerdict (fun _ => ReqResult.status 404) (fun _ => ReqResult.otherExc ("x")) sampleGrantA =
      Verdict.keep :=
  ⟨(C4_liveness_excludes_404_only (fun _ => ReqResult.status 404)
      (fun _ => ReqResult.otherExc ("x")) sampleDead).2.1
      ("https://dead.example/x") rfl (by decide) rfl,
   (C4_liveness_excludes_404_only (fun _ => ReqResult.timeoutExc)
      (fun _ => ReqResult.otherExc ("x")) sampleDead).2.2.2.2.1
      ("https://dead.example/x") rfl rfl,
   (C4_liveness_excludes_404_only (fun _ => ReqResult.otherExc ("connection refused"))
      (fun _ => ReqResult.otherExc ("x")) sampleDead).2.2.2.2.2.1
      ("https://dead.example/x") ("connection refused") rfl rfl,
   (C4_liveness_excludes_404_only (fun _ => ReqResult.status 404)
      (fun _ => ReqResult.otherExc ("x")) sampleGrantA).2.2.2.1 rfl⟩

/-- C9: the probe tries the lightweight HEAD first — a HEAD status decides
at once and the GET oracle is never consulted otherwise — and only a
protocol-level HTTPStatusError from the HEAD triggers the single GET
retry, whose resolved status then decides the verdict. -/
theorem C9_head_first_single_get_fallback (head get : String → ReqResult) (u : String) :
    (head u = ReqResult.httpStatusError → probe head get u = statusOrExc (get u))
  ∧ (∀ c : Nat, head u = ReqResult.httpStatusError → get u = ReqResult.status c →
       probe head get u = Except.ok c)
  ∧ (∀ c : Nat, head u = ReqResult.status c → probe head get u = Except.ok c)
  ∧ (head u ≠ ReqResult.httpStatusError →
       ∀ get2 : String → ReqResult, probe head get u = probe head get2 u) := by
  refine ⟨?_, ?_, ?_, ?_⟩
  · intro h; simp [probe, h]
  · intro c h1 h2; simp [probe, statusOrExc, h1, h2]
  · intro c h; simp [probe, h]
  · intro h get2
    cases hh : head u with
    | httpStatusError => exact absurd hh h
    | status c => simp [probe, hh]
    | timeoutExc => simp [probe, hh]
    | otherExc m => simp [probe, hh]

/-- Witness for C9: a HEAD protocol error falls back to the GET status,
and a HEAD timeout never consults the GET oracle. -/
theorem C9_witness :
    probe (fun _ => ReqResult.httpStatusError) (fun _ => ReqResult.status 200)
      ("https://a.example/") = Except.ok 200
  ∧ probe (fun _ => ReqResult.status 503) (fun _ => ReqResult.status 200)
      ("https://a.example/") = Except.ok 503
  ∧ probe (fun _ => ReqResult.timeoutExc) (fun _ => ReqResult.status 200) ("https://a.example/") =
      probe (fun _ => ReqResult.timeoutExc) (fun _ => ReqResult.status 999) ("https://a.example/") :=
  ⟨(C9_head_first_single_get_fallback (fun _ => ReqResult.httpStatusError)
      (fun _ => ReqResult.status 200) ("https://a.example/")).2.1 200 rfl rfl,
   (C9_head_first_single_get_fallback (fun _ => ReqResult.status 503)
      (fun _ => ReqResult.status 200) ("https://a.example/")).2.2.1 503 rfl,
   (C9_head_first_single_get_fallback (fun _ => ReqResult.timeoutExc)
      (fun _ => ReqResult.status 200) ("https://a.example/")).2.2.2 (by decide)
      (fun _ => ReqResult.status 999)⟩

/-- Characterization of the isinstance-str test on a lookup result. -/
theorem isStrVal_iff (o : Option JVal) :
    isStrVal o = true ↔ ∃ s : String, o = some (JVal.str s) := by
  cases o with
  | none => simp [isStrVal]
  | some v => cases v <;> simp [isStrVal]

/-- C6: the schema gate accepts an element exactly when it is a key-value
object whose name and provider keys both hold strings — extra fields never
matter — so every survivor has a string name and provider; the spec's
concrete rejects and accept behave as stated; and the validation loop
keeps exactly the annotated gate survivors in order. -/
theorem C6_validator_accepts_iff_string_name_provider :
    (∀ g : JVal,
       (∃ fs : List (String × JVal), grantCheck g = Except.ok fs) ↔
       (∃ (fs : List (String × JVal)) (nm pv : String),
          g = JVal.obj fs ∧ jlookup fs ("name") = some (JVal.str nm) ∧
          jlookup fs ("provider") = some (JVal.str pv)))
  ∧ grantCheck (JVal.obj []) = Except.error ("Missing name")
  ∧ grantCheck (JVal.obj [(("name"), JVal.str ("X"))]) = Except.error ("Missing provider")
  ∧ grantCheck (JVal.obj [(("name"), JVal.num ("5")), (("provider"), JVal.str ("Y"))]) =
      Except.error ("Name not string")
  ∧ grantCheck (JVal.obj [(("name"), JVal.str ("X")), (("provider"), JVal.str ("Y")),
        (("extra"), JVal.null)]) =
      Except.ok [(("name"), JVal.str ("X")), (("provider"), JVal.str ("Y")), (("extra"), JVal.null)]
  ∧ grantCheck (JVal.num ("3")) = Except.error ("Not a dict")
  ∧ (∀ (source : Source) (gs : List JVal) (i : Nat),
       (validateLoop source gs i).1 = gs.filterMap (fun g =>
         match grantCheck g with
         | Except.ok fs => some (JVal.obj (annotate source fs))
         | Except.error _ => none)) := by
  refine ⟨?_, rfl, rfl, rfl, rfl, rfl, ?_⟩
  · intro g
    constructor
    · rintro ⟨fs, hfs⟩
      cases g with
      | null => simp [grantCheck] at hfs
      | bool b => simp [grantCheck] at hfs
      | num l => simp [grantCheck] at hfs
      | str s => simp [grantCheck] at hfs
      | arr xs => simp [grantCheck] at hfs
      | obj fields =>
        rcases hn : jlookup fields ("name") with _ | v1
        · simp [grantCheck, hn] at hfs
        · rcases hp : jlookup fields ("provider") with _ | v2
          · simp [grantCheck, hn, hp] at hfs
          · cases v1 <;> cases v2 <;> simp [grantCheck, hn, hp, isStrVal] at hfs <;>
              exact ⟨fields, _, _, rfl, hn, hp⟩
    · rintro ⟨fs, nm, pv, rfl, hn, hp⟩
      exact ⟨fs, by simp [grantCheck, hn, hp, isStrVal]⟩
  · intro source gs
    induction gs with
    | nil => intro i; rfl
    | cons g rest ih =>
      intro i
      cases hg : grantCheck g with
      | ok fs => simp [validateLoop, hg, ih (i + 1), List.filterMap_cons]
      | error r => simp [validateLoop, hg, ih (i + 1), List.filterMap_cons]

set_option maxRecDepth 100000 in
/-- C5: on a model response wrapping the JSON array in a fenced code block
followed by trailing prose, the extractor isolates exactly the
depth-matched array substring, parses it, and recovers exactly one record
whose name is A and whose provider is B. -/
theorem C5_fenced_response_recovery :
    isolate_json_text sampleResponse = samplePayload
  ∧ json_loads samplePayload =
      some (JVal.arr [JVal.obj [(("name"), JVal.str ("A")), (("provider"), JVal.str ("B"))]])
  ∧ (scrape_and_extract sampleSource sampleCrawl (ModelOutcome.reply sampleResponse)).grants.length = 1
  ∧ jget ((scrape_and_extract sampleSource sampleCrawl
        (ModelOutcome.reply sampleResponse)).grants.headD JVal.null) ("name") =
      some (JVal.str ("A"))
  ∧ jget ((scrape_and_extract sampleSource sampleCrawl
        (ModelOutcome.reply sampleResponse)).grants.headD JVal.null) ("provider") =
      some (JVal.str ("B")) :=
  ⟨rfl, rfl, rfl, rfl, rfl⟩

/-- C7: every extraction failure mode — crawler exception, unsuccessful
fetch, sub-threshold content, model exception, unparseable model output,
and an unexpected parsed type — yields an empty grant list together with a
structured diagnostic, and the embedding is a total function, so no
exception escapes the extractor boundary. -/
theorem C7_extractor_failures_yield_empty_with_diagnostic (source : Source) :
    (∀ (msg : String) (model : ModelOutcome),
       (scrape_and_extract source (CrawlOutcome.crawlExc msg) model).grants = []
     ∧ (scrape_and_extract source (CrawlOutcome.crawlExc msg) model).debug.error = some msg)
  ∧ (∀ (err : String) (model : ModelOutcome),
       (scrape_and_extract source (CrawlOutcome.failure err) model).grants = []
     ∧ (scrape_and_extract source (CrawlOutcome.failure err) model).debug.error = some err)
  ∧ (∀ (markdown html : Option String) (model : ModelOutcome),
       (contentFromCrawl markdown html).1.length < 100 →
       (scrape_and_extract source (CrawlOutcome.success markdown html) model).grants = []
     ∧ (scrape_and_extract source (CrawlOutcome.success markdown html) model).debug.content_length =
         (contentFromCrawl markdown html).1.length)
  ∧ (∀ (markdown html : Option String) (msg : String),
       100 ≤ (contentFromCrawl markdown html).1.length →
       (scrape_and_extract source (CrawlOutcome.success markdown html)
          (ModelOutcome.exc msg)).grants = []
     ∧ (scrape_and_extract source (CrawlOutcome.success markdown html)
          (ModelOutcome.exc msg)).debug.claude_error = some msg)
  ∧ (∀ (markdown html : Option String) (text : String),
       100 ≤ (contentFromCrawl markdown html).1.length →
       json_loads (isolate_json_text text) = none →
       (scrape_and_extract source (CrawlOutcome.success markdown html)
          (ModelOutcome.reply text)).grants = []
     ∧ (scrape_and_extract source (CrawlOutcome.success markdown html)
          (ModelOutcome.reply text)).debug.json_error = some ("JSONDecodeError"))
  ∧ (∀ (markdown html : Option String) (text : String) (parsed : JVal),
       100 ≤ (contentFromCrawl markdown html).1.length →
       json_loads (isolate_json_text text) = some parsed →
       grantsOfParsed parsed = none →
       (scrape_and_extract source (CrawlOutcome.success markdown html)
          (ModelOutcome.reply text)).grants = []
     ∧ (scrape_and_extract source (CrawlOutcome.success markdown html)
          (ModelOutcome.reply text)).debug.parse_type_error =
         some ("Unexpected type: " ++ typeName parsed)) := by
  have hlong : ∀ (markdown html : Option String),
      100 ≤ (contentFromCrawl markdown html).1.length →
      ¬((contentFromCrawl markdown html).1 = "" ∨ (contentFromCrawl markdown html).1.length < 100) := by
    intro markdown html hlen
    rintro (h1 | h2)
    · rw [h1] at hlen
      simp [String.length] at hlen
    · omega
  refine ⟨fun msg model => ⟨rfl, rfl⟩, fun err model => ⟨rfl, rfl⟩, ?_, ?_, ?_, ?_⟩
  · intro markdown html model h
    have hcond : (contentFromCrawl markdown html).1 = "" ∨
        (contentFromCrawl markdown html).1.length < 100 := Or.inr h
    exact ⟨by simp [scrape_and_extract, hcond], by simp [scrape_and_extract, hcond]⟩
  · intro markdown html msg hlen
    have hne := hlong markdown html hlen
    exact ⟨by simp [scrape_and_extract, hne], by simp [scrape_and_extract, hne]⟩
  · intro markdown html text hlen hjson
    have hne := hlong markdown html hlen
    exact ⟨by simp [scrape_and_extract, hne, hjson], by simp [scrape_and_extract, hne, hjson]⟩
  · intro markdown html text parsed hlen hjson hshape
    have hne := hlong markdown html hlen
    exact ⟨by simp [scrape_and_extract, hne, hjson, hshape],
           by simp [scrape_and_extract, hne, hjson, hshape]⟩

set_option maxRecDepth 100000 in
/-- Witness for C7: each failure mode evaluated at concrete inputs. -/
theorem C7_witness :
    (scrape_and_extract sampleSource (CrawlOutcome.crawlExc ("boom"))
       (ModelOutcome.reply ("x"))).grants = []
  ∧ (scrape_and_extract sampleSource (CrawlOutcome.failure ("nav error"))
       (ModelOutcome.reply ("x"))).debug.error = some ("nav error")
  ∧ (scrape_and_extract sampleSource (CrawlOutcome.success none none)
       (ModelOutcome.reply ("y"))).grants = []
  ∧ (scrape_and_extract sampleSource sampleCrawl (ModelOutcome.exc ("api down"))).debug.claude_error =
      some ("api down")
  ∧ (scrape_and_extract sampleSource sampleCrawl (ModelOutcome.reply ("junk !!"))).debug.json_error =
      some ("JSONDecodeError") :=
  ⟨((C7_extractor_failures_yield_empty_with_diagnostic sampleSource).1 ("boom")
      (ModelOutcome.reply ("x"))).1,
   ((C7_extractor_failures_yield_empty_with_diagnostic sampleSource).2.1 ("nav error")
      (ModelOutcome.reply ("x"))).2,
   ((C7_extractor_failures_yield_empty_with_diagnostic sampleSource).2.2.1 none none
      (ModelOutcome.reply ("y")) (by decide)).1,
   ((C7_extractor_failures_yield_empty_with_diagnostic sampleSource).2.2.2.1
      (some ⟨List.replicate 150 'x'⟩) none ("api down") (by decide)).2,
   ((C7_extractor_failures_yield_empty_with_diagnostic sampleSource).2.2.2.2.1
      (some ⟨List.replicate 150 'x'⟩) none ("junk !!") (by decide) rfl).2⟩

end GrantAgent
